import Mathlib

/-!
Shallow embedding of the data-join-and-filter core of the suivibarques
dashboard (source: src/src/pages/dashboard.tsx).

The program is a client-side pipeline: parse a semicolon-delimited history
file into trip rows, join them against an owner table on the Matricule key,
filter the merged rows by owner / free text / date range, paginate the
filtered rows, and format them for clipboard export.

Modelling conventions:
- JavaScript strings are Lean String; the JS operations used by the source
  (split on a single character, trim, toLowerCase, includes, parseInt) are
  re-implemented below by structural recursion on the character list so that
  the kernel can evaluate them (the built-in String.splitOn does not reduce).
- parseInt returning NaN is modelled as Option.none; the source always
  coalesces NaN with the pattern parseInt(x, 10) || 0, modelled as getD 0.
- JS Date values are modelled by the Instant structure: a calendar point
  (year, zero-based month, day, millisecond of day) compared
  lexicographically, which agrees with timestamp order for in-range fields.
  The local time zone is taken to be UTC. The Date(year, month, day)
  constructor quirk that maps years 0..99 to 1900..1999 is modelled, as is
  month normalisation.
- The open owner row (column name to string mapping) is projected onto the
  three columns the dashboard reads: Matricule, Barque, Proprietaire
  (the accented source field name Propriétaire is spelled Proprio here).
  An absent column (JS undefined) is Option.none.
-/

namespace Suivibarques

/-- JS whitespace characters relevant to trim and parseInt. -/
def isJsSpace (c : Char) : Bool :=
  c = ' ' || c = '\t' || c = '\n' || c = '\r' || c = '\x0b' || c = '\x0c'

/-- Split a character list on a single separator character, JS
String.prototype.split semantics: the empty list yields one empty field. -/
def splitOnChar (sep : Char) : List Char → List (List Char)
  | [] => [[]]
  | c :: rest =>
    if c = sep then [] :: splitOnChar sep rest
    else
      match splitOnChar sep rest with
      | [] => [[c]]
      | h :: t => (c :: h) :: t

/-- JS s.split(sep) for a one-character separator. -/
def jsSplit (s : String) (sep : Char) : List String :=
  (splitOnChar sep s.data).map String.mk

/-- JS s.trim(): strip leading and trailing whitespace. -/
def jsTrim (s : String) : String :=
  ⟨((s.data.dropWhile isJsSpace).reverse.dropWhile isJsSpace).reverse⟩

/-- JS s.toLowerCase() restricted to the ASCII range the data uses. -/
def jsToLower (s : String) : String :=
  ⟨s.data.map Char.toLower⟩

/-- Boolean prefix test on character lists. -/
def isPrefixOfB : List Char → List Char → Bool
  | [], _ => true
  | _ :: _, [] => false
  | a :: as, b :: bs => a = b && isPrefixOfB as bs

/-- Does pat occur as a contiguous run inside s? -/
def containsSub (pat : List Char) : List Char → Bool
  | [] => isPrefixOfB pat []
  | c :: rest => isPrefixOfB pat (c :: rest) || containsSub pat rest

/-- JS s.includes(pat). -/
def jsIncludes (s pat : String) : Bool :=
  containsSub pat.data s.data

/-- Digit accumulator for jsParseInt. -/
def digitsToNat (ds : List Char) : Nat :=
  ds.foldl (fun acc c => acc * 10 + (c.toNat - 48)) 0

/-- JS parseInt(s, 10): skip leading whitespace, optional sign, then the
maximal run of leading decimal digits; none models the NaN result when no
digit is found. -/
def jsParseInt (s : String) : Option Int :=
  let cs := s.data.dropWhile isJsSpace
  let signed : Int × List Char :=
    match cs with
    | '-' :: r => (-1, r)
    | '+' :: r => (1, r)
    | _ => (1, cs)
  let ds := signed.2.takeWhile Char.isDigit
  if ds.isEmpty then none
  else some (signed.1 * (digitsToNat ds : Nat))

/-- Trip row (interface Historique in the source). -/
structure Historique where
  Matricule : String
  DateMaree : String
  Mois : Int
  Annee : Int
  deriving DecidableEq, Repr

/-- Owner row projected onto the columns the dashboard reads; Proprio
models the accented source column Propriétaire. none is a missing column. -/
structure Proprietaire where
  Matricule : Option String
  Barque : Option String
  Proprio : Option String
  deriving DecidableEq, Repr

/-- Joined row (interface MergedData in the source). -/
structure MergedData where
  Barque : String
  Matricule : String
  DateMaree : String
  Proprio : String
  Mois : Int
  Annee : Int
  id : String
  deriving DecidableEq, Repr

/-- Models the source pattern values[i] ? values[i].trim() : with a missing
or empty field collapsing to the empty string (JS truthiness). -/
def jsFieldOrEmpty (o : Option String) : String :=
  match o with
  | none => ""
  | some v => if v = "" then "" else jsTrim v

/-- The dateStr local of handleHistoriqueUpload for one line. -/
def dateStrOf (line : String) : String :=
  jsFieldOrEmpty ((jsSplit line ';').get? 1)

/-- The dateParts local of handleHistoriqueUpload for one line. -/
def datePartsOf (line : String) : List String :=
  jsSplit (dateStrOf line) '/'

/-- parseInt(parts[i], 10) || 0: a missing component behaves like NaN. -/
def jsParseIntAt (parts : List String) (i : Nat) : Int :=
  ((parts.get? i).bind jsParseInt).getD 0

/-- One row of handleHistoriqueUpload: split the line on the semicolon,
take field 0 as Matricule and field 1 as the date string, then read Mois
and Annee from the first two slash-separated components of the date. -/
def parseHistLine (line : String) : Historique :=
  { Matricule := jsFieldOrEmpty ((jsSplit line ';').get? 0)
    DateMaree := dateStrOf line
    Mois := jsParseIntAt (datePartsOf line) 0
    Annee := jsParseIntAt (datePartsOf line) 1 }

/-- handleHistoriqueUpload on the raw file text: split into lines, drop
blank lines, parse each remaining line. -/
def parseHistorique (text : String) : List Historique :=
  ((jsSplit text '\n').filter (fun l => jsTrim l ≠ "")).map parseHistLine

/-- The source pattern proprietaire[col] || Inconnu: a missing or empty
column falls back to the placeholder. -/
def orInconnu (o : Option String) : String :=
  match o with
  | none => "Inconnu"
  | some v => if v = "" then "Inconnu" else v

/-- proprietairesData.find on the Matricule key: JS strict equality of an
optional column with a string is equality with some. -/
def matchOwner (owners : List Proprietaire) (h : Historique) : Option Proprietaire :=
  owners.find? (fun p => p.Matricule = some h.Matricule)

/-- The object literal pushed by the merge effect, with synthetic id
row-<counter>. -/
def mkMerged (p : Proprietaire) (h : Historique) (c : Nat) : MergedData :=
  { Barque := orInconnu p.Barque
    Matricule := h.Matricule
    DateMaree := h.DateMaree
    Proprio := orInconnu p.Proprio
    Mois := h.Mois
    Annee := h.Annee
    id := "row-" ++ toString c }

/-- The forEach loop of the merge effect: the mutable idCounter becomes an
explicit accumulator that increments only on a successful match. -/
def mergeAux (owners : List Proprietaire) : List Historique → Nat → List MergedData
  | [], _ => []
  | h :: rest, c =>
    match matchOwner owners h with
    | some p => mkMerged p h c :: mergeAux owners rest (c + 1)
    | none => mergeAux owners rest c

/-- The merge effect of the source (idCounter starts at 0). -/
def merge (owners : List Proprietaire) (trips : List Historique) : List MergedData :=
  mergeAux owners trips 0

/-- Specification-side merge, written from the spec text of section 4.2:
keep, in order, the trips that have a matching owner (first match wins),
build each output row from the matching owner and the trip, and assign the
synthetic id from the enumeration index of the output sequence. -/
def mergeSpec (owners : List Proprietaire) (trips : List Historique) : List MergedData :=
  (List.enum (trips.filterMap
      (fun h => (matchOwner owners h).map (fun p => (p, h))))).map
    (fun x => mkMerged x.2.1 x.2.2 x.1)

/-- A calendar point compared lexicographically: year, zero-based month,
day of month, millisecond of day. For in-range fields this order agrees
with JS Date timestamp order (local time zone taken as UTC). -/
structure Instant where
  year : Int
  month0 : Int
  day : Nat
  ms : Nat
  deriving DecidableEq, Repr

/-- Timestamp order on calendar points. -/
def Instant.leb (a b : Instant) : Bool :=
  decide (a.year < b.year ∨ (a.year = b.year ∧
    (a.month0 < b.month0 ∨ (a.month0 = b.month0 ∧
      (a.day < b.day ∨ (a.day = b.day ∧ a.ms ≤ b.ms))))))

/-- new Date(year, month, day) at midnight: years 0..99 are shifted to
1900..1999, and the month is normalised into the year (floored division,
which is what Euclidean division by the positive constant 12 computes). -/
def jsDateYMD (y m : Int) (d : Nat) : Instant :=
  let yAdj := if 0 ≤ y ∧ y ≤ 99 then y + 1900 else y
  let total := yAdj * 12 + m
  { year := Int.ediv total 12
    month0 := Int.emod total 12
    day := d
    ms := 0 }

/-- The value of a (non-empty) date input field, year-month-day. -/
structure ISODate where
  year : Int
  month : Int
  day : Nat
  deriving DecidableEq, Repr

/-- new Date(iso) followed by setHours(0, 0, 0, 0). -/
def startInstant (d : ISODate) : Instant :=
  ⟨d.year, d.month - 1, d.day, 0⟩

/-- new Date(iso) followed by setHours(23, 59, 59, 999). -/
def endInstant (d : ISODate) : Instant :=
  ⟨d.year, d.month - 1, d.day, 86399999⟩

/-- The filter controls of the dashboard; an unset date input (empty
string, falsy in JS) is none. -/
structure FilterState where
  selectedProprietaire : String
  barqueFilter : String
  startDate : Option ISODate
  endDate : Option ISODate
  deriving Repr

/-- The date-range predicate of the filteredData memo: the row is compared
through the synthetic date new Date(item.Annee, item.Mois - 1, 1). -/
def datePred (s : FilterState) (item : MergedData) : Bool :=
  let itemDate := jsDateYMD item.Annee (item.Mois - 1) 1
  match s.startDate, s.endDate with
  | some sd, some ed =>
      Instant.leb (startInstant sd) itemDate && Instant.leb itemDate (endInstant ed)
  | some sd, none => Instant.leb (startInstant sd) itemDate
  | none, some ed => Instant.leb itemDate (endInstant ed)
  | none, none => true

/-- The filteredData memo: owner equality filter, then free-text filter on
Matricule or Barque (case-insensitive substring), then date-range filter.
Each stage is skipped when its control is inactive. -/
def filteredData (mergedData : List MergedData) (s : FilterState) : List MergedData :=
  let d1 :=
    if s.selectedProprietaire ≠ "" ∧ s.selectedProprietaire ≠ "all" then
      mergedData.filter (fun item => item.Proprio = s.selectedProprietaire)
    else mergedData
  let d2 :=
    if s.barqueFilter ≠ "" then
      d1.filter (fun item =>
        jsIncludes (jsToLower item.Matricule) (jsToLower s.barqueFilter) ||
        jsIncludes (jsToLower item.Barque) (jsToLower s.barqueFilter))
    else d1
  if s.startDate.isSome ∨ s.endDate.isSome then
    d2.filter (datePred s)
  else d2

/-- itemsPerPage constant of the dashboard. -/
def itemsPerPage : Nat := 10

/-- Math.ceil(filteredData.length / itemsPerPage); the JS floating-point
division is exact here, modelled by rational division. -/
def totalPages (l : List MergedData) : Int :=
  Int.ceil ((l.length : ℚ) / (itemsPerPage : ℚ))

/-- filteredData.slice((page - 1) * itemsPerPage, page * itemsPerPage);
page is 1-indexed (the dashboard clamps it to at least 1). -/
def currentData (l : List MergedData) (page : Nat) : List MergedData :=
  (l.drop ((page - 1) * itemsPerPage)).take itemsPerPage

/-- Block separator of handleCopyData. -/
def exportSeparator : String := "\n\n------------------\n\n"

/-- One export block of handleCopyData. -/
def exportBlock (item : MergedData) : String :=
  "⛵ *" ++ item.Barque ++ "* (" ++ item.Matricule ++ ")\n📅 " ++ item.DateMaree

/-- The totalText header of handleCopyData. -/
def exportHeader (count : Nat) : String :=
  "📊 *Total des résultats:* " ++ toString count

/-- handleCopyData: an empty filtered set takes the early-return branch
(the nothing-to-copy toast), modelled as none; otherwise the clipboard
payload string is built. -/
def handleCopyData (filtered : List MergedData) : Option String :=
  if filtered.length = 0 then none
  else
    let itemsText := String.intercalate "\n\n------------------\n\n"
      (filtered.map (fun item =>
        "⛵ *" ++ item.Barque ++ "* (" ++ item.Matricule ++ ")\n📅 " ++ item.DateMaree))
    let totalText := "📊 *Total des résultats:* " ++ toString filtered.length
    some (totalText ++ "\n\n" ++ itemsText)

/-- Owner table of the section 8 example of the spec. -/
def exampleOwners : List Proprietaire :=
  [⟨some "123-456", some "Barque1", some "Jean Dupont"⟩]

/-- History file text of the section 8 example of the spec. -/
def exampleHistText : String :=
  "123-456;01/01/2024\n999-999;02/02/2024"

/-- The merged set the code produces on the section 8 example. -/
def exampleMerged : List MergedData :=
  merge exampleOwners (parseHistorique exampleHistText)

/-- The single merged row the code actually produces on the example; note
Annee is 1 (the month component of 01/01/2024), not 2024. -/
def exampleRecord : MergedData :=
  ⟨"Barque1", "123-456", "01/01/2024", "Jean Dupont", 1, 1, "row-0"⟩

theorem totalPages_eq (l : List MergedData) :
    totalPages l = (((l.length + 9) / 10 : ℕ) : ℤ) := by
  unfold totalPages itemsPerPage
  set n : ℕ := l.length with hn
  set q : ℕ := (n + 9) / 10 with hq
  have h1 : 10 * q ≤ n + 9 ∧ n + 9 < 10 * q + 10 := by
    have hd := Nat.div_add_mod (n + 9) 10
    have hm : (n + 9) % 10 < 10 := Nat.mod_lt _ (by norm_num)
    omega
  have h1q : (10 : ℚ) * q ≤ (n : ℚ) + 9 := by exact_mod_cast h1.1
  have h2q : (n : ℚ) ≤ 10 * q := by
    have hx : n ≤ 10 * q := by omega
    exact_mod_cast hx
  rw [Int.ceil_eq_iff]
  push_cast
  constructor
  · rw [lt_div_iff₀ (by norm_num : (0:ℚ) < 10)]
    linarith
  · rw [div_le_iff₀ (by norm_num : (0:ℚ) < 10)]
    linarith

theorem ite_filter_sublist (c : Prop) (inst : Decidable c) (p : MergedData → Bool)
    (l m : List MergedData) (hlm : l.Sublist m) :
    (@ite _ c inst (l.filter p) l).Sublist m := by
  split
  · exact (List.filter_sublist l).trans hlm
  · exact hlm

theorem filteredData_sublist (R : List MergedData) (s : FilterState) :
    (filteredData R s).Sublist R := by
  unfold filteredData
  exact ite_filter_sublist _ _ _ _ _
    (ite_filter_sublist _ _ _ _ _
      (ite_filter_sublist _ _ _ _ _ (List.Sublist.refl R)))

theorem filteredData_nil (s : FilterState) : filteredData [] s = [] :=
  List.sublist_nil.mp (filteredData_sublist [] s)

theorem mergeAux_eq (owners : List Proprietaire) (trips : List Historique) :
    ∀ c : Nat,
      mergeAux owners trips c =
        (List.enumFrom c (trips.filterMap
            (fun h => (matchOwner owners h).map (fun p => (p, h))))).map
          (fun x => mkMerged x.2.1 x.2.2 x.1) := by
  induction trips with
  | nil => intro c; rfl
  | cons h rest ih =>
    intro c
    cases hm : matchOwner owners h with
    | none =>
      simp only [mergeAux, hm, List.filterMap_cons, Option.map_none']
      exact ih c
    | some p =>
      simp only [mergeAux, hm, List.filterMap_cons, Option.map_some', List.enumFrom,
        List.map_cons]
      rw [ih (c + 1)]

theorem mergeAux_ids (owners : List Proprietaire) (trips : List Historique) :
    ∀ c : Nat,
      (mergeAux owners trips c).map MergedData.id =
        (List.range' c (mergeAux owners trips c).length).map
          (fun j => "row-" ++ toString j) := by
  induction trips with
  | nil => intro c; rfl
  | cons h rest ih =>
    intro c
    cases hm : matchOwner owners h with
    | none =>
      simp only [mergeAux, hm]
      exact ih c
    | some p =>
      simp only [mergeAux, hm, List.map_cons, List.length_cons]
      rw [ih (c + 1),
        show List.range' c ((mergeAux owners rest (c + 1)).length + 1) =
          c :: List.range' (c + 1) (mergeAux owners rest (c + 1)).length from rfl,
        List.map_cons]
      rfl

theorem range_succ_flatMap {α : Type} (f : Nat → List α) (n : Nat) :
    (List.range (n + 1)).flatMap f = f 0 ++ (List.range n).flatMap (fun i => f (i + 1)) := by
  rw [List.range_succ_eq_map]
  simp [List.flatMap_cons, List.flatMap_map]

theorem chunks_cover : ∀ (n : Nat) (l : List MergedData), l.length ≤ 10 * n →
    (List.range n).flatMap (fun i => (l.drop (i * 10)).take 10) = l := by
  intro n
  induction n with
  | zero =>
    intro l hl
    have hz : l = [] := List.length_eq_zero.mp (by omega)
    subst hz; rfl
  | succ n ih =>
    intro l hl
    rw [range_succ_flatMap]
    have h2 : (List.range n).flatMap (fun i => (l.drop ((i + 1) * 10)).take 10)
        = (List.range n).flatMap (fun i => ((l.drop 10).drop (i * 10)).take 10) := by
      apply List.flatMap_congr
      intro i _
      rw [List.drop_drop, show (i + 1) * 10 = 10 + i * 10 by ring]
    rw [h2, ih (l.drop 10) (by simp [List.length_drop]; omega)]
    simp [List.take_append_drop]

/-- Claim C1: on the section 8 example (owner 123-456/Barque1/Jean Dupont,
history lines 123-456;01/01/2024 and 999-999;02/02/2024) the code produces
exactly one merged record with Mois = 1 but Annee = 1, not 2024: the source
reads Annee from the second slash component of the date, which in the
dd/mm/yyyy format is the month. -/
theorem C1_code_eval : exampleMerged = [exampleRecord] := by decide

/-- Claim C2 counterexample: on the empty merged set with inactive filters
the filtered list is empty and totalPages is 0, not at least 1. -/
theorem C2_counterexample :
    ¬ (1 ≤ totalPages (filteredData [] ⟨"all", "", none, none⟩)) := by
  rw [totalPages_eq]
  decide

/-- Claim C2 (amended): totalPages is the ceiling of count / pageSize,
equal to (count + 9) / 10 in integer arithmetic; on an empty filtered list
it is 0 (the code has no minimum-1 clamp). -/
theorem C2_totalPages_formula :
    (∀ l : List MergedData, totalPages l = (((l.length + 9) / 10 : ℕ) : ℤ)) ∧
    (∀ s : FilterState, totalPages (filteredData [] s) = 0) := by
  constructor
  · exact totalPages_eq
  · intro s
    rw [filteredData_nil, totalPages_eq]
    decide

/-- Claim C3: on the merged record the code derives from
123-456;01/01/2024 (whose Annee field is 1, mapped by the Date constructor
to year 1901), the date filter excludes the record both for the range
2024-01-01 to 2024-01-31 (the claim expects it kept) and for the one-sided
range from 2024-02-01 (the claim expects it excluded). -/
theorem C3_code_eval :
    filteredData exampleMerged ⟨"all", "", some ⟨2024, 1, 1⟩, some ⟨2024, 1, 31⟩⟩ = [] ∧
    filteredData exampleMerged ⟨"all", "", some ⟨2024, 2, 1⟩, none⟩ = [] := by
  constructor <;> decide

/-- Claim C4: merge equals the specification-side join mergeSpec: one
output per trip with a matching owner (first match in scan order), trips
without a match silently dropped, trip order preserved, synthetic ids
assigned by output position; and the boat and owner fields fall back to
the placeholder Inconnu exactly when absent or empty. -/
theorem C4_merge_refines_spec :
    (∀ (owners : List Proprietaire) (trips : List Historique),
        merge owners trips = mergeSpec owners trips) ∧
    orInconnu none = "Inconnu" ∧ orInconnu (some "") = "Inconnu" ∧
    (∀ v : String, v ≠ "" → orInconnu (some v) = v) := by
  refine ⟨?_, rfl, rfl, ?_⟩
  · intro owners trips
    exact mergeAux_eq owners trips 0
  · intro v hv
    show (if v = "" then "Inconnu" else v) = v
    rw [if_neg hv]

/-- Claim C4 witness at concrete inputs. -/
theorem C4_witness : orInconnu (some "Barque1") = "Barque1" :=
  C4_merge_refines_spec.2.2.2 "Barque1" (by decide)

/-- Claim C5: the filter pipeline returns a sublist of its input: every
output record is a record of the input and the relative order is
preserved (and, being a Lean function, it has no side effects). -/
theorem C5_filter_is_subsequence :
    ∀ (R : List MergedData) (s : FilterState), (filteredData R s).Sublist R :=
  fun R s => filteredData_sublist R s

/-- Claim C6: concatenating the page slices for pages 1 through totalPages
reconstructs the filtered list exactly, and every page strictly before the
last has exactly pageSize (10) records. -/
theorem C6_pagination_covers :
    ∀ (R : List MergedData) (s : FilterState),
      (List.range (totalPages (filteredData R s)).toNat).flatMap
          (fun i => currentData (filteredData R s) (i + 1)) = filteredData R s ∧
      (∀ p : Nat, 1 ≤ p → (p : ℤ) < totalPages (filteredData R s) →
        (currentData (filteredData R s) p).length = 10) := by
  intro R s
  set l := filteredData R s with hl
  have htp : (totalPages l).toNat = (l.length + 9) / 10 := by
    rw [totalPages_eq]
    exact Int.toNat_natCast _
  constructor
  · rw [htp]
    have hlen : l.length ≤ 10 * ((l.length + 9) / 10) := by
      have hd := Nat.div_add_mod (l.length + 9) 10
      have hm : (l.length + 9) % 10 < 10 := Nat.mod_lt _ (by norm_num)
      omega
    exact chunks_cover ((l.length + 9) / 10) l hlen
  · intro p hp hlt
    rw [totalPages_eq] at hlt
    have hlt2 : p < (l.length + 9) / 10 := by exact_mod_cast hlt
    have hlen : 10 * ((l.length + 9) / 10) ≤ l.length + 9 := by
      have hd := Nat.div_add_mod (l.length + 9) 10
      omega
    simp only [currentData, itemsPerPage, List.length_take, List.length_drop]
    have h10p : 10 * p ≤ l.length := by
      have : 10 * (p + 1) ≤ 10 * ((l.length + 9) / 10) := by omega
      omega
    omega

/-- Claim C6 witness: an 11-record filtered list has 2 pages, the slices
for pages 1 and 2 concatenate back to the list, and page 1 holds exactly
10 records. -/
theorem C6_witness :
    (List.range (totalPages (filteredData (List.replicate 11 exampleRecord)
          ⟨"all", "", none, none⟩)).toNat).flatMap
        (fun i => currentData (filteredData (List.replicate 11 exampleRecord)
          ⟨"all", "", none, none⟩) (i + 1)) =
      filteredData (List.replicate 11 exampleRecord) ⟨"all", "", none, none⟩ ∧
    (currentData (filteredData (List.replicate 11 exampleRecord)
        ⟨"all", "", none, none⟩) 1).length = 10 :=
  ⟨(C6_pagination_covers (List.replicate 11 exampleRecord) ⟨"all", "", none, none⟩).1,
   (C6_pagination_covers (List.replicate 11 exampleRecord) ⟨"all", "", none, none⟩).2 1
     (by decide) (by rw [totalPages_eq]; decide)⟩

/-- Helper: with only the free-text control active, the filter pipeline is
exactly the case-insensitive substring filter on Matricule or Barque. -/
theorem filteredData_textOnly (R : List MergedData) (f : String) (hf : f ≠ "") :
    filteredData R ⟨"all", f, none, none⟩ =
      R.filter (fun item =>
        jsIncludes (jsToLower item.Matricule) (jsToLower f) ||
        jsIncludes (jsToLower item.Barque) (jsToLower f)) := by
  unfold filteredData
  rw [if_neg (by simp), if_pos hf, if_neg (by simp)]

/-- Claim C7: with a non-empty free-text filter (and the other controls
inactive) a record is kept iff the lowered filter text occurs in the
lowered Matricule or the lowered Barque; on the section 8 merged set the
text 123 keeps the single record and the text zzz keeps nothing. -/
theorem C7_text_filter :
    (∀ (R : List MergedData) (r : MergedData) (f : String), f ≠ "" →
      (r ∈ filteredData R ⟨"all", f, none, none⟩ ↔
        r ∈ R ∧ (jsIncludes (jsToLower r.Matricule) (jsToLower f) = true ∨
                 jsIncludes (jsToLower r.Barque) (jsToLower f) = true))) ∧
    filteredData exampleMerged ⟨"all", "123", none, none⟩ = [exampleRecord] ∧
    filteredData exampleMerged ⟨"all", "zzz", none, none⟩ = [] := by
  refine ⟨?_, by decide, by decide⟩
  intro R r f hf
  rw [filteredData_textOnly R f hf, List.mem_filter]
  simp [Bool.or_eq_true]

/-- Claim C7 witness at concrete inputs. -/
theorem C7_witness :
    exampleRecord ∈ filteredData exampleMerged ⟨"all", "123", none, none⟩ ↔
      exampleRecord ∈ exampleMerged ∧
        (jsIncludes (jsToLower exampleRecord.Matricule) (jsToLower "123") = true ∨
         jsIncludes (jsToLower exampleRecord.Barque) (jsToLower "123") = true) :=
  C7_text_filter.1 exampleMerged exampleRecord "123" (by decide)

/-- Claim C8: export on an empty filtered list yields no string at all
(the nothing-to-copy branch), and on a non-empty list yields the header
stating the count, then one block per record with boat name, registration
id and trip date, joined by the fixed separator. -/
theorem C8_export_format :
    handleCopyData [] = none ∧
    ∀ l : List MergedData, l ≠ [] →
      handleCopyData l =
        some (exportHeader l.length ++ "\n\n" ++
          String.intercalate exportSeparator (l.map exportBlock)) := by
  refine ⟨rfl, ?_⟩
  intro l hl
  unfold handleCopyData
  rw [if_neg (by simp [hl])]
  rfl

/-- Claim C8 witness at a concrete one-record list. -/
theorem C8_witness :
    handleCopyData [exampleRecord] =
      some (exportHeader 1 ++ "\n\n" ++
        String.intercalate exportSeparator ([exampleRecord].map exportBlock)) :=
  C8_export_format.2 [exampleRecord] (by decide)

/-- Claim C9: parsing never drops or fails a non-blank history row: the
output has one record per non-blank line, and when the first two slash
components of the date field both fail to parse as integers (non-numeric
or missing), the record is still produced with Mois = 0 and Annee = 0. -/
theorem C9_parse_never_fails :
    (∀ text : String, (parseHistorique text).length =
        ((jsSplit text '\n').filter (fun l => jsTrim l ≠ "")).length) ∧
    (∀ line : String,
      ((datePartsOf line).get? 0).bind jsParseInt = none →
      ((datePartsOf line).get? 1).bind jsParseInt = none →
      (parseHistLine line).Mois = 0 ∧ (parseHistLine line).Annee = 0) := by
  constructor
  · intro text
    unfold parseHistorique
    rw [List.length_map]
  · intro line h0 h1
    constructor
    · show jsParseIntAt (datePartsOf line) 0 = 0
      unfold jsParseIntAt
      rw [h0]
      rfl
    · show jsParseIntAt (datePartsOf line) 1 = 0
      unfold jsParseIntAt
      rw [h1]
      rfl

/-- Claim C9 witness: a line whose date components are non-numeric still
yields a record, with Mois and Annee both 0. -/
theorem C9_witness :
    (parseHistLine "abc;xx/yy").Mois = 0 ∧ (parseHistLine "abc;xx/yy").Annee = 0 :=
  C9_parse_never_fails.2 "abc;xx/yy" (by decide) (by decide)

/-- Claim C10: the synthetic ids of the merge output are, in order,
row-0, row-1, ...: the id at output position i is the string row-
followed by the decimal rendering of i. Merge is a pure function, so
re-running it on identical inputs reproduces these ids exactly. -/
theorem C10_synthetic_ids :
    ∀ (owners : List Proprietaire) (trips : List Historique),
      (merge owners trips).map MergedData.id =
        (List.range (merge owners trips).length).map
          (fun i => "row-" ++ toString i) := by
  intro owners trips
  rw [List.range_eq_range']
  exact mergeAux_ids owners trips 0

end Suivibarques
